import Mathlib

/-!
Shallow embedding of the item CRUD service of this repository
(`src/app.js`): the four Lambda handlers `CreateItem`, `ReadItem`,
`UpdateItem`, `DeleteItem` backed by a DynamoDB table keyed by `ItemID`,
and the browser-side `load-item-button` click handler that renders a
fetched item.

The DynamoDB `DocumentClient` calls (`put`, `get`, `update`, `delete`)
are modelled by pure functions over an association-list store, following
the service's documented single-key semantics: `put` is an unconditional
overwrite, `get` returns the record or nothing, `update` without a
condition expression is a blind upsert that sets only the named
attributes, `delete` is idempotent.  A request with a missing or empty
partition-key value is rejected by the service with a validation error;
an unreachable backend is modelled by the `healthy` flag being `false`,
which makes every call fail with a backend fault.  Both kinds of failure
are caught by the handlers' `try/catch` and turned into a 500 response.

`JSON.parse` of a request body either yields the parsed fields or throws
a `SyntaxError`; a body is therefore modelled by its parse result
(`Option`), and a handler that lets that exception escape is modelled by
an `Except.error` outcome, distinct from every structured response.
-/

namespace ItemService

/-- A record stored in the `ItemsTable` DynamoDB table.  Attributes other
than the partition key may be absent from a stored record (for example
`CreatedAt` is absent from a record brought into existence by a blind
`update`), so they are `Option`-valued. -/
structure Item where
  itemID : String
  name : Option String
  description : Option String
  createdAt : Option String
deriving Repr, DecidableEq

/-- The table contents: a list of stored records, at most one per key. -/
abbrev Store := List Item

/-- Single-key lookup in the table. -/
def getRec (s : Store) (k : String) : Option Item :=
  s.find? (fun it => it.itemID == k)

/-- Unconditional single-key write: replaces any record with the same key. -/
def putRec (s : Store) (it : Item) : Store :=
  it :: s.filter (fun o => o.itemID != it.itemID)

/-- Single-key removal; removes nothing when the key is absent. -/
def delRec (s : Store) (k : String) : Store :=
  s.filter (fun o => o.itemID != k)

/-- Outcomes of a DynamoDB call that the handlers' `catch` blocks see. -/
inductive DbError where
  /-- Connectivity / throttling / internal service failure. -/
  | backendFault
  /-- Request rejected by the service, e.g. a missing or empty key value. -/
  | validationFailed
deriving Repr, DecidableEq

/-- A key value as supplied by the caller: `none` models a JS `undefined`
key attribute.  DynamoDB rejects a missing or empty partition-key value. -/
def validKey : Option String → Bool
  | none => false
  | some k => k != ""

/-- Modelled from the backend service: `DocumentClient.put` with
`Item: {ItemID, Name, Description, CreatedAt}` — unconditional overwrite,
rejecting a missing or empty `ItemID`. -/
def dynamoPut (healthy : Bool) (s : Store)
    (key nm ds ca : Option String) : Except DbError Store :=
  if !healthy then Except.error DbError.backendFault
  else match key with
    | none => Except.error DbError.validationFailed
    | some k =>
      if k == "" then Except.error DbError.validationFailed
      else Except.ok (putRec s { itemID := k, name := nm, description := ds, createdAt := ca })

/-- Modelled from the backend service: `DocumentClient.get` with
`Key: {ItemID}` — returns the record when present, nothing otherwise. -/
def dynamoGet (healthy : Bool) (s : Store) (k : String) :
    Except DbError (Option Item) :=
  if !healthy then Except.error DbError.backendFault
  else if k == "" then Except.error DbError.validationFailed
  else Except.ok (getRec s k)

/-- The attribute names the Update handler's `UpdateExpression`
(`set Name = :name, Description = :description`) references directly;
no `ExpressionAttributeNames` aliases are supplied by the handler. -/
def updateExprAttrNames : List String :=
  ["Name", "Description"]

/-- Modelled from the backend service: the entries of DynamoDB's
reserved-word list relevant to the attribute names this code base uses
(the full, case-insensitive list has several hundred entries; `NAME` is
on it, `DESCRIPTION` is not). -/
def reservedWords : List String :=
  ["NAME", "NAMES", "DESC", "DESCRIBE", "DESCRIPTOR"]

/-- ASCII upper-casing of one character, for the case-insensitive
reserved-word comparison. -/
def upChar (c : Char) : Char :=
  if c.toNat ≥ 97 && c.toNat ≤ 122 then Char.ofNat (c.toNat - 32) else c

/-- ASCII upper-casing of a string. -/
def upStr (s : String) : String :=
  String.mk (s.toList.map upChar)

/-- An update expression that references a reserved word directly,
without an alias, is rejected by the service; the list is matched
case-insensitively. -/
def exprUsesReservedWord (names : List String) : Bool :=
  names.any (fun n => reservedWords.contains (upStr n))

/-- Modelled from the backend service: `DocumentClient.update` with
`UpdateExpression: set Name = :name, Description = :description` and
`ReturnValues: ALL_NEW`, no condition expression.  The expression is
validated first: it references `Name`, a DynamoDB reserved word, with no
`ExpressionAttributeNames` alias, so the service rejects every such call
with a `ValidationException`.  Were the expression valid, the call would
be a blind upsert: if the key is present only `Name` and `Description`
are overwritten, if it is absent a new record holding just the key and
those two attributes is created, and either way the whole new record is
returned; a request with an undefined expression attribute value or a
missing/empty key is likewise rejected. -/
def dynamoUpdate (healthy : Bool) (s : Store) (k : String)
    (nm ds : Option String) : Except DbError (Store × Item) :=
  if !healthy then Except.error DbError.backendFault
  else if exprUsesReservedWord updateExprAttrNames then
    Except.error DbError.validationFailed
  else if k == "" then Except.error DbError.validationFailed
  else match nm, ds with
    | some n, some d =>
      match getRec s k with
      | some it =>
        let it2 := { it with name := some n, description := some d }
        Except.ok (putRec s it2, it2)
      | none =>
        let it2 : Item :=
          { itemID := k, name := some n, description := some d, createdAt := none }
        Except.ok (putRec s it2, it2)
    | _, _ => Except.error DbError.validationFailed

/-- Modelled from the backend service: `DocumentClient.delete` with
`Key: {ItemID}` — succeeds whether or not the key is present. -/
def dynamoDelete (healthy : Bool) (s : Store) (k : String) :
    Except DbError Store :=
  if !healthy then Except.error DbError.backendFault
  else if k == "" then Except.error DbError.validationFailed
  else Except.ok (delRec s k)

/-- Modelled from the JS runtime: the UTC calendar components of
`new Date()` at the moment the Create handler runs. -/
structure DateTime where
  year : Nat
  month : Nat
  day : Nat
  hour : Nat
  minute : Nat
  second : Nat
  millis : Nat
deriving Repr, DecidableEq

/-- The components lie in the ranges the runtime clock produces. -/
def DateTime.Valid (d : DateTime) : Prop :=
  d.year ≤ 9999 ∧ 1 ≤ d.month ∧ d.month ≤ 12 ∧ 1 ≤ d.day ∧ d.day ≤ 31 ∧
    d.hour ≤ 23 ∧ d.minute ≤ 59 ∧ d.second ≤ 59 ∧ d.millis ≤ 999

/-- The decimal digit character for `n mod 10`. -/
def dig (n : Nat) : Char :=
  Nat.digitChar (n % 10)

/-- Modelled from the JS runtime: `Date.prototype.toISOString`, which for
an in-range clock reading prints `YYYY-MM-DDTHH:MM:SS.mmmZ` with
zero-padded decimal components. -/
def toISOString (d : DateTime) : String :=
  String.mk
    [dig (d.year / 1000), dig (d.year / 100), dig (d.year / 10), dig d.year, '-',
     dig (d.month / 10), dig d.month, '-', dig (d.day / 10), dig d.day, 'T',
     dig (d.hour / 10), dig d.hour, ':', dig (d.minute / 10), dig d.minute, ':',
     dig (d.second / 10), dig d.second, '.',
     dig (d.millis / 100), dig (d.millis / 10), dig d.millis, 'Z']

/-- Checks the ISO-8601 extended UTC timestamp shape
`YYYY-MM-DDTHH:MM:SS.mmmZ`: 24 characters, digits at the digit positions
and the literal separators in between. -/
def isISO8601 (s : String) : Bool :=
  match s.toList with
  | [y1, y2, y3, y4, '-', m1, m2, '-', d1, d2, 'T',
     h1, h2, ':', n1, n2, ':', c1, c2, '.', f1, f2, f3, 'Z'] =>
    [y1, y2, y3, y4, m1, m2, d1, d2, h1, h2, n1, n2, c1, c2, f1, f2, f3].all Char.isDigit
  | _ => false

/-- Uncaught JS exceptions that escape a handler. -/
inductive JsError where
  /-- `JSON.parse` threw on a body that is not valid JSON. -/
  | parseFailure
deriving Repr, DecidableEq

/-- The JSON bodies a handler response is serialized from. -/
inductive Body where
  | message (m : String)
  | error (e : String)
  | item (it : Item)
deriving Repr, DecidableEq

/-- An API-Gateway-style Lambda response. -/
structure Response where
  statusCode : Nat
  body : Body
deriving Repr, DecidableEq

/-- The fields the Create handler destructures from its parsed body; a
field missing from the JSON is `none` (JS `undefined`).  A `CreatedAt`
field may be present in the body but the handler never reads it. -/
structure CreateBody where
  itemID : Option String
  name : Option String
  description : Option String
  createdAt : Option String
deriving Repr, DecidableEq

/-- A Create request event: the raw body is represented by its
`JSON.parse` result, `none` when parsing throws. -/
structure CreateEvent where
  body : Option CreateBody
deriving Repr, DecidableEq

/-- The fields the Update handler destructures from its parsed body. -/
structure UpdateBody where
  name : Option String
  description : Option String
deriving Repr, DecidableEq

/-- `CreateItem` Lambda (src/app.js lines 119-145): parse the body —
outside the `try`, so a parse failure escapes —, stamp `CreatedAt` with
`new Date().toISOString()`, `put` unconditionally, answer 201 on
success and 500 on any caught error. -/
def createItem (healthy : Bool) (now : DateTime) (ev : CreateEvent)
    (s : Store) : Except JsError (Response × Store) :=
  match ev.body with
  | none => Except.error JsError.parseFailure
  | some b =>
    let timestamp := toISOString now
    match dynamoPut healthy s b.itemID b.name b.description (some timestamp) with
    | Except.ok s2 =>
      Except.ok (⟨201, Body.message "Item created successfully"⟩, s2)
    | Except.error _ =>
      Except.ok (⟨500, Body.error "Could not create item"⟩, s)

/-- `ReadItem` Lambda (src/app.js lines 154-178): `get` by the `ItemID`
path parameter; 404 when absent, 200 with the record when present, 500
on a caught error. -/
def readItem (healthy : Bool) (itemID : String) (s : Store) :
    Except JsError (Response × Store) :=
  match dynamoGet healthy s itemID with
  | Except.ok none => Except.ok (⟨404, Body.message "Item not found"⟩, s)
  | Except.ok (some it) => Except.ok (⟨200, Body.item it⟩, s)
  | Except.error _ =>
    Except.ok (⟨500, Body.error "Could not retrieve item"⟩, s)

/-- `UpdateItem` Lambda (src/app.js lines 187-214): parse the body —
outside the `try`, so a parse failure escapes —, then `update` setting
`Name` and `Description` with `ReturnValues: ALL_NEW`; 200 with the
returned attributes, 500 on a caught error. -/
def updateItem (healthy : Bool) (itemID : String) (body : Option UpdateBody)
    (s : Store) : Except JsError (Response × Store) :=
  match body with
  | none => Except.error JsError.parseFailure
  | some b =>
    match dynamoUpdate healthy s itemID b.name b.description with
    | Except.ok (s2, it) => Except.ok (⟨200, Body.item it⟩, s2)
    | Except.error _ =>
      Except.ok (⟨500, Body.error "Could not update item"⟩, s)

/-- `DeleteItem` Lambda (src/app.js lines 223-243): `delete` by the
`ItemID` path parameter; 200 with a confirmation message on success,
500 on a caught error. -/
def deleteItem (healthy : Bool) (itemID : String) (s : Store) :
    Except JsError (Response × Store) :=
  match dynamoDelete healthy s itemID with
  | Except.ok s2 =>
    Except.ok (⟨200, Body.message "Item deleted successfully"⟩, s2)
  | Except.error _ =>
    Except.ok (⟨500, Body.error "Could not delete item"⟩, s)

/-- The JSON fields the `load-item-button` click handler reads from the
GET response body; a field absent from the JSON is `none`. -/
structure LoadData where
  id : Option String
  name : Option String
  description : Option String
deriving Repr, DecidableEq

/-- Modelled from the JS runtime: template-literal interpolation, which
prints `undefined` for a missing field. -/
def interp : Option String → String
  | none => "undefined"
  | some s => s

/-- Modelled from the JS runtime: truthiness of a string-or-undefined
value — `undefined` and the empty string are falsy. -/
def truthy : Option String → Bool
  | none => false
  | some s => s != ""

/-- `load-item-button` click handler (src/app.js lines 24-41): what is
written to `item-output` for the fetched data — the item markup when
`data.name` is truthy, the literal text `Item not found` otherwise. -/
def renderItem (d : LoadData) : String :=
  if truthy d.name then
    "\n        <strong>ID:</strong> " ++ interp d.id ++
      "<br>\n        <strong>Name:</strong> " ++ interp d.name ++
      "<br>\n        <strong>Description:</strong> " ++ interp d.description ++
      "\n      "
  else "Item not found"

/-- Every position of `toISOString`'s output built by `dig` is a decimal
digit character. -/
theorem dig_isDigit (n : Nat) : (dig n).isDigit = true := by
  have h : n % 10 < 10 := Nat.mod_lt _ (by norm_num)
  unfold dig
  revert h
  generalize n % 10 = m
  intro h
  interval_cases m <;> decide

/-- `toISOString` always produces a string of the ISO-8601 UTC shape. -/
theorem isISO8601_toISOString (d : DateTime) :
    isISO8601 (toISOString d) = true := by
  simp [isISO8601, toISOString, dig_isDigit]

/-- Looking up the key just written returns the written record. -/
theorem getRec_putRec_self (s : Store) (it : Item) :
    getRec (putRec s it) it.itemID = some it := by
  simp [getRec, putRec, List.find?]

/-- `getRec_putRec_self` specialised to a literal record, in the form the
handler proofs rewrite with. -/
theorem getRec_putRec (s : Store) (k : String) (nm ds ca : Option String) :
    getRec (putRec s ⟨k, nm, ds, ca⟩) k = some ⟨k, nm, ds, ca⟩ :=
  getRec_putRec_self s ⟨k, nm, ds, ca⟩

/-- Looking up a key just deleted finds nothing. -/
theorem getRec_delRec_self (s : Store) (k : String) :
    getRec (delRec s k) k = none := by
  unfold getRec delRec
  rw [List.find?_eq_none]
  intro x hx
  have hmem := List.mem_filter.mp hx
  simp only [bne_iff_ne, ne_eq] at hmem
  simp [hmem.2]

/-- Claim C1: for a valid non-empty id, Create with `{id, name, description}`
(any caller-supplied `CreatedAt` being ignored) answers 201 and stores the
record, and Read on the same id returns a record whose name and description
equal the created values and whose createdAt is the system clock's
ISO-8601 stamp taken at creation time. -/
theorem create_then_read (now : DateTime) (s : Store) (id nm ds : String)
    (junk : Option String) (hid : id ≠ "") :
    createItem true now ⟨some ⟨some id, some nm, some ds, junk⟩⟩ s
      = Except.ok (⟨201, Body.message "Item created successfully"⟩,
          putRec s ⟨id, some nm, some ds, some (toISOString now)⟩) ∧
    readItem true id (putRec s ⟨id, some nm, some ds, some (toISOString now)⟩)
      = Except.ok (⟨200, Body.item ⟨id, some nm, some ds, some (toISOString now)⟩⟩,
          putRec s ⟨id, some nm, some ds, some (toISOString now)⟩) ∧
    isISO8601 (toISOString now) = true := by
  refine ⟨?_, ?_, isISO8601_toISOString now⟩
  · simp [createItem, dynamoPut, hid]
  · simp [readItem, dynamoGet, hid, getRec_putRec]

/-- Claim C1 witness at a concrete creation followed by a read. -/
theorem create_then_read_witness :
    createItem true ⟨2024, 5, 6, 7, 8, 9, 10⟩
        ⟨some ⟨some "42", some "Widget", some "A widget", some "bogus"⟩⟩ []
      = Except.ok (⟨201, Body.message "Item created successfully"⟩,
          putRec [] ⟨"42", some "Widget", some "A widget",
            some (toISOString ⟨2024, 5, 6, 7, 8, 9, 10⟩)⟩) ∧
    readItem true "42" (putRec [] ⟨"42", some "Widget", some "A widget",
        some (toISOString ⟨2024, 5, 6, 7, 8, 9, 10⟩)⟩)
      = Except.ok (⟨200, Body.item ⟨"42", some "Widget", some "A widget",
            some (toISOString ⟨2024, 5, 6, 7, 8, 9, 10⟩)⟩⟩,
          putRec [] ⟨"42", some "Widget", some "A widget",
            some (toISOString ⟨2024, 5, 6, 7, 8, 9, 10⟩)⟩) ∧
    isISO8601 (toISOString ⟨2024, 5, 6, 7, 8, 9, 10⟩) = true :=
  create_then_read ⟨2024, 5, 6, 7, 8, 9, 10⟩ [] "42" "Widget" "A widget"
    (some "bogus") (by decide)

/-- The Update handler's update expression references a reserved word:
`Name` in upper case is on the service's list. -/
theorem updateExpr_reserved :
    exprUsesReservedWord updateExprAttrNames = true := by
  decide

/-- Claim C2: evaluated at an update of a stored record, the handler's
update call is rejected by the service — the `UpdateExpression`
references the reserved word `Name` — so the handler answers the generic
500 and the stored record, its itemID and createdAt included, is left
untouched; the claimed 200-with-updated-record execution never occurs. -/
theorem update_always_rejected :
    updateItem true "42" (some ⟨some "Widget2", some "Updated"⟩)
        [⟨"42", some "Widget", some "A widget", some "2024-05-06T07:08:09.010Z"⟩]
      = Except.ok (⟨500, Body.error "Could not update item"⟩,
          [⟨"42", some "Widget", some "A widget",
            some "2024-05-06T07:08:09.010Z"⟩]) := by
  simp [updateItem, dynamoUpdate, updateExpr_reserved]

/-- Claim C3: Delete is idempotent — deleting an absent key succeeds with
200, a second delete of the same id succeeds with 200, and only a backend
fault produces the 500 failure response. -/
theorem delete_idempotent (s : Store) (id : String) (hid : id ≠ "")
    (habsent : getRec s id = none) :
    deleteItem true id s
      = Except.ok (⟨200, Body.message "Item deleted successfully"⟩,
          delRec s id) ∧
    deleteItem true id (delRec s id)
      = Except.ok (⟨200, Body.message "Item deleted successfully"⟩,
          delRec (delRec s id) id) ∧
    (∀ s2 : Store, deleteItem false id s2
      = Except.ok (⟨500, Body.error "Could not delete item"⟩, s2)) := by
  refine ⟨?_, ?_, fun s2 => ?_⟩
  · simp [deleteItem, dynamoDelete, hid]
  · simp [deleteItem, dynamoDelete, hid]
  · simp [deleteItem, dynamoDelete]

/-- Claim C3 witness: deleting an id that was never created, then deleting
it again, both succeed. -/
theorem delete_idempotent_witness :
    deleteItem true "42" []
      = Except.ok (⟨200, Body.message "Item deleted successfully"⟩,
          delRec [] "42") ∧
    deleteItem true "42" (delRec [] "42")
      = Except.ok (⟨200, Body.message "Item deleted successfully"⟩,
          delRec (delRec [] "42") "42") ∧
    (∀ s2 : Store, deleteItem false "42" s2
      = Except.ok (⟨500, Body.error "Could not delete item"⟩, s2)) :=
  delete_idempotent [] "42" (by decide) rfl

/-- Claim C4: on a healthy backend, reading an absent id answers the
explicit 404 not-found response; a backend fault answers the distinct 500
error response, and the two responses are different values. -/
theorem read_absent_notFound (s : Store) (id : String) (hid : id ≠ "")
    (habsent : getRec s id = none) :
    readItem true id s
      = Except.ok (⟨404, Body.message "Item not found"⟩, s) ∧
    (∀ s2 : Store, readItem false id s2
      = Except.ok (⟨500, Body.error "Could not retrieve item"⟩, s2)) ∧
    (⟨404, Body.message "Item not found"⟩ : Response)
      ≠ (⟨500, Body.error "Could not retrieve item"⟩ : Response) := by
  refine ⟨?_, fun s2 => ?_, by decide⟩
  · simp [readItem, dynamoGet, hid, habsent]
  · simp [readItem, dynamoGet]

/-- Claim C4 witness: reading a never-created id from the empty table. -/
theorem read_absent_notFound_witness :
    readItem true "42" []
      = Except.ok (⟨404, Body.message "Item not found"⟩, []) ∧
    (∀ s2 : Store, readItem false "42" s2
      = Except.ok (⟨500, Body.error "Could not retrieve item"⟩, s2)) ∧
    (⟨404, Body.message "Item not found"⟩ : Response)
      ≠ (⟨500, Body.error "Could not retrieve item"⟩ : Response) :=
  read_absent_notFound [] "42" (by decide) rfl

/-- Claim C5: Create on an id that already has a stored record
unconditionally puts the new record, reports 201 success, and afterwards
every record under that key carries the fresh createdAt — the original
record's createdAt is lost. -/
theorem create_overwrites_existing (s : Store) (old : Item)
    (id nm ds : String) (now : DateTime) (hid : id ≠ "")
    (h : getRec s id = some old) :
    createItem true now ⟨some ⟨some id, some nm, some ds, none⟩⟩ s
      = Except.ok (⟨201, Body.message "Item created successfully"⟩,
          putRec s ⟨id, some nm, some ds, some (toISOString now)⟩) ∧
    getRec (putRec s ⟨id, some nm, some ds, some (toISOString now)⟩) id
      = some ⟨id, some nm, some ds, some (toISOString now)⟩ ∧
    (∀ it2 ∈ putRec s ⟨id, some nm, some ds, some (toISOString now)⟩,
      it2.itemID = id → it2.createdAt = some (toISOString now)) := by
  refine ⟨?_, getRec_putRec_self s _, fun it2 hmem hkey => ?_⟩
  · simp [createItem, dynamoPut, hid]
  · rcases List.mem_cons.mp hmem with heq | hfil
    · rw [heq]
    · have := (List.mem_filter.mp hfil).2
      simp only [bne_iff_ne, ne_eq] at this
      exact absurd hkey this

/-- Claim C5 witness: re-creating an existing id replaces the stored
record and its original creation stamp. -/
theorem create_overwrites_existing_witness :
    createItem true ⟨2025, 1, 2, 3, 4, 5, 6⟩
        ⟨some ⟨some "42", some "New", some "Replacement", none⟩⟩
        [⟨"42", some "Widget", some "A widget", some "2024-05-06T07:08:09.010Z"⟩]
      = Except.ok (⟨201, Body.message "Item created successfully"⟩,
          putRec [⟨"42", some "Widget", some "A widget",
              some "2024-05-06T07:08:09.010Z"⟩]
            ⟨"42", some "New", some "Replacement",
              some (toISOString ⟨2025, 1, 2, 3, 4, 5, 6⟩)⟩) ∧
    getRec (putRec [⟨"42", some "Widget", some "A widget",
          some "2024-05-06T07:08:09.010Z"⟩]
        ⟨"42", some "New", some "Replacement",
          some (toISOString ⟨2025, 1, 2, 3, 4, 5, 6⟩)⟩) "42"
      = some ⟨"42", some "New", some "Replacement",
          some (toISOString ⟨2025, 1, 2, 3, 4, 5, 6⟩)⟩ ∧
    (∀ it2 ∈ putRec [⟨"42", some "Widget", some "A widget",
          some "2024-05-06T07:08:09.010Z"⟩]
        ⟨"42", some "New", some "Replacement",
          some (toISOString ⟨2025, 1, 2, 3, 4, 5, 6⟩)⟩,
      it2.itemID = "42" →
        it2.createdAt = some (toISOString ⟨2025, 1, 2, 3, 4, 5, 6⟩)) :=
  create_overwrites_existing
    [⟨"42", some "Widget", some "A widget", some "2024-05-06T07:08:09.010Z"⟩]
    ⟨"42", some "Widget", some "A widget", some "2024-05-06T07:08:09.010Z"⟩
    "42" "New" "Replacement" ⟨2025, 1, 2, 3, 4, 5, 6⟩ (by decide) rfl

/-- Claim C6: evaluated at a request body that is not valid JSON, the
Create and Update handlers reject with the uncaught `JSON.parse`
exception — it is raised before their `try/catch` — instead of returning
a structured response. -/
theorem malformed_body_escapes_handler :
    createItem true ⟨2024, 1, 1, 0, 0, 0, 0⟩ ⟨none⟩ []
      = Except.error JsError.parseFailure ∧
    updateItem true "42" none []
      = Except.error JsError.parseFailure :=
  ⟨rfl, rfl⟩

/-- Claim C7 counterexample: Create with a missing id is not surfaced as
an immediate client input error — the put is issued, the backend rejects
it, and the handler answers the same generic 500 error it answers for a
backend fault on a well-formed request. -/
theorem create_missing_id_cex :
    createItem true ⟨2024, 1, 1, 0, 0, 0, 0⟩
        ⟨some ⟨none, some "Widget", some "A widget", none⟩⟩ []
      = Except.ok (⟨500, Body.error "Could not create item"⟩, []) ∧
    createItem false ⟨2024, 1, 1, 0, 0, 0, 0⟩
        ⟨some ⟨some "42", some "Widget", some "A widget", none⟩⟩ []
      = Except.ok (⟨500, Body.error "Could not create item"⟩, []) :=
  ⟨rfl, rfl⟩

/-- Claim C7 amended: Create with a missing or empty id passes the put to
the backend, which rejects it; the handler answers the generic 500 create
failure and the store is unchanged — no record is written. -/
theorem create_invalid_id_generic_500 (now : DateTime) (s : Store)
    (b : CreateBody) (hbad : validKey b.itemID = false) :
    createItem true now ⟨some b⟩ s
      = Except.ok (⟨500, Body.error "Could not create item"⟩, s) := by
  cases hb : b.itemID with
  | none => simp [createItem, dynamoPut, hb]
  | some k =>
    have hk : k = "" := by
      have := hbad
      rw [hb] at this
      simpa [validKey] using this
    simp [createItem, dynamoPut, hb, hk]

/-- Claim C7 amended witness: a concrete Create with the id field absent
from the body. -/
theorem create_invalid_id_generic_500_witness :
    createItem true ⟨2024, 1, 1, 0, 0, 0, 0⟩
        ⟨some ⟨none, some "Widget", some "A widget", none⟩⟩ []
      = Except.ok (⟨500, Body.error "Could not create item"⟩, []) :=
  create_invalid_id_generic_500 ⟨2024, 1, 1, 0, 0, 0, 0⟩ []
    ⟨none, some "Widget", some "A widget", none⟩ rfl

/-- Claim C8 counterexample: updating an id with no stored record
produces the very same generic 500 error response as an update attempted
against an unreachable backend — the two outcomes are not distinct, so
the caller cannot tell 'no such item' apart from a backend failure. -/
theorem update_absent_conflated_cex :
    updateItem true "ghost" (some ⟨some "NewName", some "NewDesc"⟩) []
      = Except.ok (⟨500, Body.error "Could not update item"⟩, []) ∧
    updateItem false "ghost" (some ⟨some "NewName", some "NewDesc"⟩) []
      = Except.ok (⟨500, Body.error "Could not update item"⟩, []) := by
  exact ⟨by simp [updateItem, dynamoUpdate, updateExpr_reserved], rfl⟩

/-- Claim C8 amended: updating a non-existent id yields the same generic
500 error as a backend fault — every update call is rejected by the
service because the `UpdateExpression` references the reserved word
`Name` — so no distinct not-found outcome exists, no update succeeds,
and the store is unchanged. -/
theorem update_absent_generic_500 (s : Store) (id : String)
    (b : UpdateBody) (habsent : getRec s id = none) :
    updateItem true id (some b) s
      = Except.ok (⟨500, Body.error "Could not update item"⟩, s) ∧
    (∀ s2 : Store, updateItem false id (some b) s2
      = Except.ok (⟨500, Body.error "Could not update item"⟩, s2)) := by
  refine ⟨?_, fun s2 => ?_⟩
  · simp [updateItem, dynamoUpdate, updateExpr_reserved]
  · simp [updateItem, dynamoUpdate]

/-- Claim C8 amended witness: a concrete update of a never-created id
against a healthy and against an unreachable backend. -/
theorem update_absent_generic_500_witness :
    updateItem true "ghost" (some ⟨some "NewName", some "NewDesc"⟩)
        [⟨"42", some "Widget", some "A widget", some "2024-05-06T07:08:09.010Z"⟩]
      = Except.ok (⟨500, Body.error "Could not update item"⟩,
          [⟨"42", some "Widget", some "A widget",
            some "2024-05-06T07:08:09.010Z"⟩]) ∧
    (∀ s2 : Store,
      updateItem false "ghost" (some ⟨some "NewName", some "NewDesc"⟩) s2
        = Except.ok (⟨500, Body.error "Could not update item"⟩, s2)) :=
  update_absent_generic_500
    [⟨"42", some "Widget", some "A widget", some "2024-05-06T07:08:09.010Z"⟩]
    "ghost" ⟨some "NewName", some "NewDesc"⟩ rfl

/-- Claim C9: Create, then Delete, then Read on the same id ends in the
404 not-found response — nothing survives the deletion. -/
theorem create_delete_read_notFound (now : DateTime) (s : Store)
    (id nm ds : String) (hid : id ≠ "") :
    createItem true now ⟨some ⟨some id, some nm, some ds, none⟩⟩ s
      = Except.ok (⟨201, Body.message "Item created successfully"⟩,
          putRec s ⟨id, some nm, some ds, some (toISOString now)⟩) ∧
    deleteItem true id (putRec s ⟨id, some nm, some ds, some (toISOString now)⟩)
      = Except.ok (⟨200, Body.message "Item deleted successfully"⟩,
          delRec (putRec s ⟨id, some nm, some ds, some (toISOString now)⟩) id) ∧
    readItem true id
        (delRec (putRec s ⟨id, some nm, some ds, some (toISOString now)⟩) id)
      = Except.ok (⟨404, Body.message "Item not found"⟩,
          delRec (putRec s ⟨id, some nm, some ds, some (toISOString now)⟩) id) := by
  refine ⟨?_, ?_, ?_⟩
  · simp [createItem, dynamoPut, hid]
  · simp [deleteItem, dynamoDelete, hid]
  · simp [readItem, dynamoGet, hid, getRec_delRec_self]

/-- Claim C9 witness: a concrete create, delete, read sequence. -/
theorem create_delete_read_notFound_witness :
    createItem true ⟨2024, 5, 6, 7, 8, 9, 10⟩
        ⟨some ⟨some "42", some "Widget", some "A widget", none⟩⟩ []
      = Except.ok (⟨201, Body.message "Item created successfully"⟩,
          putRec [] ⟨"42", some "Widget", some "A widget",
            some (toISOString ⟨2024, 5, 6, 7, 8, 9, 10⟩)⟩) ∧
    deleteItem true "42" (putRec [] ⟨"42", some "Widget", some "A widget",
        some (toISOString ⟨2024, 5, 6, 7, 8, 9, 10⟩)⟩)
      = Except.ok (⟨200, Body.message "Item deleted successfully"⟩,
          delRec (putRec [] ⟨"42", some "Widget", some "A widget",
            some (toISOString ⟨2024, 5, 6, 7, 8, 9, 10⟩)⟩) "42") ∧
    readItem true "42"
        (delRec (putRec [] ⟨"42", some "Widget", some "A widget",
          some (toISOString ⟨2024, 5, 6, 7, 8, 9, 10⟩)⟩) "42")
      = Except.ok (⟨404, Body.message "Item not found"⟩,
          delRec (putRec [] ⟨"42", some "Widget", some "A widget",
            some (toISOString ⟨2024, 5, 6, 7, 8, 9, 10⟩)⟩) "42") :=
  create_delete_read_notFound ⟨2024, 5, 6, 7, 8, 9, 10⟩ [] "42" "Widget"
    "A widget" (by decide)

/-- Claim C10: the load-item handler renders `Item not found` for any
fetched data whose name is absent or empty — the same output as for a
genuinely absent item — and the item fields are rendered only when the
name is truthy. -/
theorem empty_name_renders_notFound (d : LoadData)
    (h : d.name = none ∨ d.name = some "") :
    renderItem d = "Item not found" ∧
    renderItem d = renderItem ⟨none, none, none⟩ ∧
    (∀ d2 : LoadData, renderItem d2 ≠ "Item not found" →
      truthy d2.name = true) := by
  have hfalse : truthy d.name = false := by
    rcases h with h | h <;> simp [truthy, h]
  have h1 : renderItem d = "Item not found" := by simp [renderItem, hfalse]
  refine ⟨h1, by rw [h1]; rfl, fun d2 hne => ?_⟩
  by_contra hf
  have hfd2 : truthy d2.name = false := by
    cases htr : truthy d2.name
    · rfl
    · exact absurd htr hf
  exact hne (by simp [renderItem, hfd2])

/-- Claim C10 witness: a fetched record with an empty name displays as
`Item not found`. -/
theorem empty_name_renders_notFound_witness :
    renderItem ⟨some "1", some "", some "desc"⟩ = "Item not found" ∧
    renderItem ⟨some "1", some "", some "desc"⟩
      = renderItem ⟨none, none, none⟩ ∧
    (∀ d2 : LoadData, renderItem d2 ≠ "Item not found" →
      truthy d2.name = true) :=
  empty_name_renders_notFound ⟨some "1", some "", some "desc"⟩ (Or.inr rfl)

end ItemService
